import Mathlib

/-!
Shallow embedding of the GlowPath deterministic scoring core
(src/src/lib.ts and the unnamed UI/client variants) and proofs of the
specification's claims about it.

Modelling conventions:
- JavaScript numbers are modelled as rationals (ℚ); all arithmetic in the
  embedded functions is exact, matching the source expressions literally.
- JavaScript `Math.round(x)` rounds half toward positive infinity, which is
  `Int.floor (x + 1/2)` (this also matches `Math.round(-1.5) = -1`).
- JavaScript `Math.max` / `Math.min` are `max` / `min` on ℚ.
- `string.slice(0, n)` is taking the first `n` characters.
-/

namespace GlowPath

/-- RiskLevel enum from src/src/lib.ts: "SAFE" | "CAUTION" | "UNSAFE". -/
inductive RiskLevel
  | SAFE
  | CAUTION
  | UNSAFE
deriving DecidableEq

/-- Classification enum from src/src/lib.ts. -/
inductive Classification
  | SAFE
  | UNSAFE
  | SOCIAL_BALANCED
  | INFRA_MISMATCH
  | UNCERTAIN
deriving DecidableEq

/-- LatLng record: floating-point degrees, modelled as rationals. -/
structure LatLng where
  lat : ℚ
  lng : ℚ
deriving DecidableEq

/-- Validated model output: the value geminiClassify (lib.ts variant) promises
to return after schema validation. -/
structure ModelOut where
  risk_level : RiskLevel
  classification : Classification
  confidence : ℚ
  rationale : String
deriving DecidableEq

/-- GlowPathResult record from src/src/lib.ts. -/
structure GlowPathResult where
  vibe_score : ℤ
  risk_level : RiskLevel
  classification : Classification
  social_warmth : ℤ
  lighting_score : ℚ
  crime_baseline : ℤ
  confidence : ℚ
  safe_haven_nearby : Bool
  rationale : String
deriving DecidableEq

/-- PlaceCandidate record (src/unnamed/part_002 variant, which carries the
three-valued open_at_time used by the ranker in src/unnamed/part_000).
JavaScript `true | false | null-or-undefined` is `Option Bool`. -/
structure PlaceCandidate where
  name : String
  address : Option String := none
  location : LatLng := ⟨0, 0⟩
  placeId : Option String := none
  vibe_score : Option ℤ := none
  risk_level : Option RiskLevel := none
  open_at_time : Option Bool := none
  hours_known : Option Bool := none
deriving DecidableEq

/-- JavaScript Math.round: round half toward positive infinity. -/
def jsRound (x : ℚ) : ℤ := Int.floor (x + 1/2)

/-- JavaScript s.slice(0, n): the first n characters of s. -/
def jsSlice (s : String) (n : ℕ) : String := String.mk (s.data.take n)

/-- lightingScoreFromRadiance from src/src/lib.ts lines 85-91:
clamp the radiance to ≥ 0, then bucket into 15/35/65/85. -/
def lightingScoreFromRadiance (r : ℚ) : ℚ :=
  if max 0 r < 1/2 then 15
  else if max 0 r < 2 then 35
  else if max 0 r < 10 then 65
  else 85

/-- vibeScore from src/src/lib.ts lines 93-97: clamp both inputs into
[0,100], then round 0.7·(100−csi) + 0.3·light. -/
def vibeScore (crimeCsi lightingScore : ℚ) : ℤ :=
  jsRound (7/10 * (100 - max 0 (min 100 crimeCsi)) + 3/10 * max 0 (min 100 lightingScore))

/-- socialWarmthProxy from src/src/lib.ts lines 99-103: clamp both inputs
into [0,100], then round 0.7·light + 0.3·(100−csi). -/
def socialWarmthProxy (crimeCsi lightingScore : ℚ) : ℤ :=
  jsRound (7/10 * max 0 (min 100 lightingScore) + 3/10 * (100 - max 0 (min 100 crimeCsi)))

/-- riskLevelFromVibe from src/src/lib.ts lines 105-109. -/
def riskLevelFromVibe (v : ℤ) : RiskLevel :=
  if v ≥ 65 then RiskLevel.SAFE
  else if v ≥ 40 then RiskLevel.CAUTION
  else RiskLevel.UNSAFE

/-- Argument record of assembleFinalResult. -/
structure AssembleParams where
  vibe_score : ℤ
  lighting_score : ℚ
  crime_baseline : ℤ
  social_warmth : ℤ
  modelOut : ModelOut
deriving DecidableEq

/-- assembleFinalResult from src/src/lib.ts lines 159-177: field-by-field
assembly; risk_level is copied from modelOut, safe_haven_nearby is false. -/
def assembleFinalResult (params : AssembleParams) : GlowPathResult :=
  { vibe_score := params.vibe_score
    risk_level := params.modelOut.risk_level
    classification := params.modelOut.classification
    social_warmth := params.social_warmth
    lighting_score := params.lighting_score
    crime_baseline := params.crime_baseline
    confidence := params.modelOut.confidence
    safe_haven_nearby := false
    rationale := params.modelOut.rationale }

/-- Pure data flow of `assess` (src/unnamed/part_000 lines 54-88 and
src/unnamed/part_001 lines 37-86), as a function of the csi value returned
by the crime fetch, the radiance override, and the classifier's output:
compute lighting, vibe and warmth, replace the model's risk_level by
riskLevelFromVibe(vibe), and assemble with crime_baseline = Math.round(csi). -/
def assessCore (csi radiance : ℚ) (modelOut : ModelOut) : GlowPathResult :=
  assembleFinalResult
    { vibe_score := vibeScore csi (lightingScoreFromRadiance radiance)
      lighting_score := lightingScoreFromRadiance radiance
      crime_baseline := jsRound csi
      social_warmth := socialWarmthProxy csi (lightingScoreFromRadiance radiance)
      modelOut := { modelOut with
        risk_level := riskLevelFromVibe (vibeScore csi (lightingScoreFromRadiance radiance)) } }

/-- Ordinal rank of a RiskLevel under the spec ordering UNSAFE < CAUTION < SAFE. -/
def riskRank : RiskLevel → ℕ
  | RiskLevel.UNSAFE => 0
  | RiskLevel.CAUTION => 1
  | RiskLevel.SAFE => 2

lemma clamp_nonneg (x : ℚ) : 0 ≤ max 0 (min 100 x) := le_max_left 0 _

lemma clamp_le_100 (x : ℚ) : max 0 (min 100 x) ≤ 100 :=
  max_le (by norm_num) (min_le_left 100 x)

lemma jsRound_bounds {x : ℚ} {a b : ℤ} (h1 : (a : ℚ) ≤ x + 1/2) (h2 : x + 1/2 < (b : ℚ) + 1) :
    a ≤ jsRound x ∧ jsRound x ≤ b := by
  constructor
  · exact Int.le_floor.mpr h1
  · have : jsRound x < b + 1 := by
      apply Int.floor_lt.mpr
      push_cast
      linarith
    omega

lemma lightingScore_values (r : ℚ) :
    lightingScoreFromRadiance r = 15 ∨ lightingScoreFromRadiance r = 35 ∨
      lightingScoreFromRadiance r = 65 ∨ lightingScoreFromRadiance r = 85 := by
  unfold lightingScoreFromRadiance
  split_ifs <;> simp

/-- C6: lightingScoreFromRadiance is total on ℚ, treats every negative input
as 0, returns only the bucket values 15/35/65/85 with left-inclusive
half-open buckets at 0.5, 2 and 10, and is non-decreasing. -/
theorem C6_lightingScore_total_buckets_monotone :
    (∀ r : ℚ, r < 0 → lightingScoreFromRadiance r = lightingScoreFromRadiance 0)
    ∧ (∀ r : ℚ, lightingScoreFromRadiance r = 15 ∨ lightingScoreFromRadiance r = 35 ∨
        lightingScoreFromRadiance r = 65 ∨ lightingScoreFromRadiance r = 85)
    ∧ (∀ r : ℚ, 0 ≤ r →
        ((lightingScoreFromRadiance r = 15 ↔ r < 1/2)
         ∧ (lightingScoreFromRadiance r = 35 ↔ 1/2 ≤ r ∧ r < 2)
         ∧ (lightingScoreFromRadiance r = 65 ↔ 2 ≤ r ∧ r < 10)
         ∧ (lightingScoreFromRadiance r = 85 ↔ 10 ≤ r)))
    ∧ (∀ r s : ℚ, r ≤ s → lightingScoreFromRadiance r ≤ lightingScoreFromRadiance s) := by
  refine ⟨?_, ?_, ?_, ?_⟩
  · intro r hr
    have h : max 0 r = 0 := max_eq_left hr.le
    simp only [lightingScoreFromRadiance, h]
    norm_num
  · exact lightingScore_values
  · intro r hr
    have h : max 0 r = r := max_eq_right hr
    unfold lightingScoreFromRadiance
    rw [h]
    refine ⟨?_, ?_, ?_, ?_⟩ <;> constructor <;> intro hh <;>
      (try obtain ⟨hh1, hh2⟩ := hh) <;> split_ifs at * <;>
      first | rfl | constructor <;> linarith | linarith
  · intro r s hrs
    have hm : max 0 r ≤ max 0 s := max_le_max le_rfl hrs
    unfold lightingScoreFromRadiance
    split_ifs <;> linarith

/-- C6 witness: the universally quantified parts of C6 instantiated at
concrete inputs, with their hypotheses discharged. -/
theorem C6_witness :
    lightingScoreFromRadiance (-3) = lightingScoreFromRadiance 0
    ∧ lightingScoreFromRadiance 1 ≤ lightingScoreFromRadiance 5
    ∧ (lightingScoreFromRadiance 3 = 65 ↔ 2 ≤ (3 : ℚ) ∧ (3 : ℚ) < 10) :=
  ⟨C6_lightingScore_total_buckets_monotone.1 (-3) (by norm_num),
   C6_lightingScore_total_buckets_monotone.2.2.2 1 5 (by norm_num),
   (C6_lightingScore_total_buckets_monotone.2.2.1 3 (by norm_num)).2.2.1⟩

lemma vibeScore_range (csi light : ℚ) : 0 ≤ vibeScore csi light ∧ vibeScore csi light ≤ 100 := by
  have hc0 := clamp_nonneg csi
  have hc1 := clamp_le_100 csi
  have hl0 := clamp_nonneg light
  have hl1 := clamp_le_100 light
  unfold vibeScore
  refine jsRound_bounds ?_ ?_ <;> push_cast <;> linarith

lemma socialWarmth_range (csi light : ℚ) :
    0 ≤ socialWarmthProxy csi light ∧ socialWarmthProxy csi light ≤ 100 := by
  have hc0 := clamp_nonneg csi
  have hc1 := clamp_le_100 csi
  have hl0 := clamp_nonneg light
  have hl1 := clamp_le_100 light
  unfold socialWarmthProxy
  refine jsRound_bounds ?_ ?_ <;> push_cast <;> linarith

/-- C7: for all inputs, including out-of-range ones, vibeScore and
socialWarmthProxy are integers in [0,100], computed by clamping both inputs
into [0,100] and rounding the weighted blend half-up; in particular
vibeScore 80 15 = round(18.5) = 19. -/
theorem C7_scores_clamped_rounded_in_range :
    (∀ csi light : ℚ,
      0 ≤ vibeScore csi light ∧ vibeScore csi light ≤ 100
      ∧ 0 ≤ socialWarmthProxy csi light ∧ socialWarmthProxy csi light ≤ 100
      ∧ vibeScore csi light =
          jsRound (7/10 * (100 - max 0 (min 100 csi)) + 3/10 * max 0 (min 100 light))
      ∧ socialWarmthProxy csi light =
          jsRound (7/10 * max 0 (min 100 light) + 3/10 * (100 - max 0 (min 100 csi))))
    ∧ vibeScore 80 15 = 19 ∧ jsRound (37/2) = 19 := by
  refine ⟨fun csi light => ⟨(vibeScore_range csi light).1, (vibeScore_range csi light).2,
    (socialWarmth_range csi light).1, (socialWarmth_range csi light).2, rfl, rfl⟩, ?_, ?_⟩
  · norm_num [vibeScore, jsRound]
  · norm_num [jsRound]

/-- C8: riskLevelFromVibe is total over ℤ, monotone non-decreasing under
UNSAFE < CAUTION < SAFE, with band boundaries exactly at 40 and 65. -/
theorem C8_riskLevel_total_monotone_boundaries :
    riskLevelFromVibe 39 = RiskLevel.UNSAFE ∧ riskLevelFromVibe 40 = RiskLevel.CAUTION
    ∧ riskLevelFromVibe 64 = RiskLevel.CAUTION ∧ riskLevelFromVibe 65 = RiskLevel.SAFE
    ∧ (∀ v w : ℤ, v ≤ w → riskRank (riskLevelFromVibe v) ≤ riskRank (riskLevelFromVibe w)) := by
  refine ⟨by decide, by decide, by decide, by decide, ?_⟩
  intro v w hvw
  unfold riskLevelFromVibe
  split_ifs <;> simp only [riskRank] <;> omega

/-- C8 witness: monotonicity instantiated at 10 ≤ 70. -/
theorem C8_witness : riskRank (riskLevelFromVibe 10) ≤ riskRank (riskLevelFromVibe 70) :=
  C8_riskLevel_total_monotone_boundaries.2.2.2.2 10 70 (by decide)

/-- C9: assembleFinalResult passes classification, confidence and rationale
through from modelOut, copies vibe_score, lighting_score, crime_baseline and
social_warmth unchanged, and always sets safe_haven_nearby to false; it is a
total function of its well-typed input. -/
theorem C9_assemble_passthrough_no_error (p : AssembleParams) :
    (assembleFinalResult p).classification = p.modelOut.classification
    ∧ (assembleFinalResult p).confidence = p.modelOut.confidence
    ∧ (assembleFinalResult p).rationale = p.modelOut.rationale
    ∧ (assembleFinalResult p).vibe_score = p.vibe_score
    ∧ (assembleFinalResult p).lighting_score = p.lighting_score
    ∧ (assembleFinalResult p).crime_baseline = p.crime_baseline
    ∧ (assembleFinalResult p).social_warmth = p.social_warmth
    ∧ (assembleFinalResult p).safe_haven_nearby = false :=
  ⟨rfl, rfl, rfl, rfl, rfl, rfl, rfl, rfl⟩

/-- C10: with csi in [0,100], the composition vibeScore(csi, lighting(radiance))
always lies in [5,96]; the extremes 5 and 96 are attained, and all three risk
bands are reachable through the lighting pipeline. -/
theorem C10_pipeline_vibe_bounds (csi radiance : ℚ) (h0 : 0 ≤ csi) (h1 : csi ≤ 100) :
    (5 ≤ vibeScore csi (lightingScoreFromRadiance radiance)
     ∧ vibeScore csi (lightingScoreFromRadiance radiance) ≤ 96)
    ∧ vibeScore 100 (lightingScoreFromRadiance 0) = 5
    ∧ vibeScore 0 (lightingScoreFromRadiance 15) = 96
    ∧ riskLevelFromVibe (vibeScore 20 (lightingScoreFromRadiance 15)) = RiskLevel.SAFE
    ∧ riskLevelFromVibe (vibeScore 50 (lightingScoreFromRadiance 1)) = RiskLevel.CAUTION
    ∧ riskLevelFromVibe (vibeScore 80 (lightingScoreFromRadiance (1/10))) = RiskLevel.UNSAFE := by
  refine ⟨?_,
    by norm_num [vibeScore, lightingScoreFromRadiance, jsRound],
    by norm_num [vibeScore, lightingScoreFromRadiance, jsRound],
    by norm_num [vibeScore, lightingScoreFromRadiance, jsRound, riskLevelFromVibe],
    by norm_num [vibeScore, lightingScoreFromRadiance, jsRound, riskLevelFromVibe],
    by norm_num [vibeScore, lightingScoreFromRadiance, jsRound, riskLevelFromVibe]⟩
  have hcl : max 0 (min 100 (lightingScoreFromRadiance radiance)) =
      lightingScoreFromRadiance radiance := by
    rcases lightingScore_values radiance with h | h | h | h <;> rw [h] <;> norm_num
  have hc : max 0 (min 100 csi) = csi := by rw [min_eq_right h1, max_eq_right h0]
  unfold vibeScore
  rw [hcl, hc]
  rcases lightingScore_values radiance with h | h | h | h <;> rw [h] <;>
    refine jsRound_bounds ?_ ?_ <;> push_cast <;> linarith

/-- C10 witness: the bound instantiated at csi = 50, radiance = 1. -/
theorem C10_witness :
    5 ≤ vibeScore 50 (lightingScoreFromRadiance 1)
    ∧ vibeScore 50 (lightingScoreFromRadiance 1) ≤ 96 :=
  (C10_pipeline_vibe_bounds 50 1 (by norm_num) (by norm_num)).1

/-- Concrete model output whose risk_level disagrees with the deterministic
one, used as the drifting-model input in counterexamples. -/
def driftedModelOut : ModelOut :=
  { risk_level := RiskLevel.UNSAFE
    classification := Classification.UNCERTAIN
    confidence := 1/2
    rationale := "model drifted" }

/-- Assembly parameters where the model's risk_level (UNSAFE) disagrees with
riskLevelFromVibe of the vibe score (90 gives SAFE). -/
def mismatchParams : AssembleParams :=
  { vibe_score := 90
    lighting_score := 65
    crime_baseline := 10
    social_warmth := 50
    modelOut := driftedModelOut }

/-- C1 counterexample: assembleFinalResult does not recompute risk_level;
fed a modelOutput whose risk_level disagrees with riskLevelFromVibe of the
vibe score, the assembled result keeps the model's wrong value. -/
theorem C1_counterexample :
    (assembleFinalResult mismatchParams).risk_level ≠
      riskLevelFromVibe ((assembleFinalResult mismatchParams).vibe_score) := by
  decide

/-- C1 as amended: the deterministic substitution happens in the caller
(assess), which replaces modelOut.risk_level by riskLevelFromVibe(vibe)
before calling assembleFinalResult, so every result produced by the assess
pipeline satisfies risk_level = riskLevelFromVibe(vibe_score). -/
theorem C1_assess_risk_invariant (csi radiance : ℚ) (mo : ModelOut) :
    (assessCore csi radiance mo).risk_level =
      riskLevelFromVibe ((assessCore csi radiance mo).vibe_score) := rfl

/-- fetchCrimeoMeterCsi value flow, direct-CrimeoMeter variant
(src/src/lib.ts lines 265-287): a finite csi from upstream is clamped into
[0,100] before being returned. -/
def fetchCsiDirect (csi : ℚ) : ℚ := max 0 (min 100 csi)

/-- fetchCrimeoMeterCsi value flow, backend-proxy variants
(src/src/lib.ts lines 69-83 and src/unnamed/part_002 lines 74-88): a finite
csi from upstream is returned unchanged, with no clamping. -/
def fetchCsiBackend (csi : ℚ) : ℚ := csi

/-- The assess pipeline over the direct-CrimeoMeter fetch. -/
def assessDirect (csiUpstream radiance : ℚ) (mo : ModelOut) : GlowPathResult :=
  assessCore (fetchCsiDirect csiUpstream) radiance mo

/-- The assess pipeline over the backend-proxy fetch. -/
def assessBackend (csiUpstream radiance : ℚ) (mo : ModelOut) : GlowPathResult :=
  assessCore (fetchCsiBackend csiUpstream) radiance mo

/-- C5 counterexample: in the backend-proxy pipeline an upstream csi of 150
is not clamped anywhere on the way to crime_baseline: the assembled result
has crime_baseline = 150, outside [0,100]. -/
theorem C5_counterexample :
    (assessBackend 150 (63/10) driftedModelOut).crime_baseline = 150
    ∧ ¬ (assessBackend 150 (63/10) driftedModelOut).crime_baseline ≤ 100 := by
  constructor <;>
    norm_num [assessBackend, fetchCsiBackend, assessCore, assembleFinalResult, jsRound]

/-- C5 as amended: only the direct-CrimeoMeter fetch variant clamps the
upstream csi, so in that pipeline crime_baseline always lies in [0,100]; in
the backend pipeline only the score computations clamp at their point of
use, so vibe_score stays in [0,100] there while crime_baseline does not. -/
theorem C5_crime_baseline_clamped_only_in_direct_variant
    (csiUpstream radiance : ℚ) (mo : ModelOut) :
    0 ≤ (assessDirect csiUpstream radiance mo).crime_baseline
    ∧ (assessDirect csiUpstream radiance mo).crime_baseline ≤ 100
    ∧ 0 ≤ (assessBackend csiUpstream radiance mo).vibe_score
    ∧ (assessBackend csiUpstream radiance mo).vibe_score ≤ 100 := by
  have hb : (0 ≤ (assessDirect csiUpstream radiance mo).crime_baseline
      ∧ (assessDirect csiUpstream radiance mo).crime_baseline ≤ 100) := by
    show 0 ≤ jsRound (fetchCsiDirect csiUpstream) ∧ jsRound (fetchCsiDirect csiUpstream) ≤ 100
    have h0 : 0 ≤ fetchCsiDirect csiUpstream := clamp_nonneg csiUpstream
    have h1 : fetchCsiDirect csiUpstream ≤ 100 := clamp_le_100 csiUpstream
    refine jsRound_bounds ?_ ?_ <;> push_cast <;> linarith
  have hv := vibeScore_range (fetchCsiBackend csiUpstream)
    (lightingScoreFromRadiance radiance)
  exact ⟨hb.1, hb.2, hv.1, hv.2⟩

/-- Primary sort key of the comparator in findAlternatives
(src/unnamed/part_000 lines 111-116): open_at_time === true maps to 1,
anything else (false or unknown) to 0. -/
def openRank (p : PlaceCandidate) : ℤ := if p.open_at_time = some true then 1 else 0

/-- Secondary sort key of the comparator: vibe_score ?? 0. -/
def vibeKey (p : PlaceCandidate) : ℤ := p.vibe_score.getD 0

/-- Combined two-part sort key of a candidate. -/
def keyOf (p : PlaceCandidate) : ℤ × ℤ := (openRank p, vibeKey p)

/-- candLE a b holds when the comparator lets a stay weakly before b, that is
comparator(a, b) ≤ 0: open rank descending first, then vibe score
descending. -/
def candLE (a b : PlaceCandidate) : Prop :=
  openRank b < openRank a ∨ (openRank a = openRank b ∧ vibeKey b ≤ vibeKey a)

instance : DecidableRel candLE := fun a b =>
  decidable_of_iff (openRank b < openRank a ∨ (openRank a = openRank b ∧ vibeKey b ≤ vibeKey a))
    Iff.rfl

instance : IsTotal PlaceCandidate candLE := ⟨by intro a b; unfold candLE; omega⟩

instance : IsTrans PlaceCandidate candLE := ⟨by intro a b c hab hbc; unfold candLE at *; omega⟩

/-- Survivors of the filter in findAlternatives line 110: candidates whose
open_at_time is not explicitly false. -/
def keptCandidates (l : List PlaceCandidate) : List PlaceCandidate :=
  l.filter (fun p => ! decide (p.open_at_time = some false))

/-- The sort in findAlternatives lines 111-116. Array.prototype.sort with a
consistent comparator is a stable sort (ECMAScript 2019), modelled as the
stable insertion sort under the comparator's non-strict order. -/
def sortedCandidates (l : List PlaceCandidate) : List PlaceCandidate :=
  List.insertionSort candLE (keptCandidates l)

/-- findAlternatives ranking (src/unnamed/part_000 lines 110-118): drop the
explicitly closed candidates, sort by the two-key comparator, return the
first 5. -/
def findAlternativesRank (l : List PlaceCandidate) : List PlaceCandidate :=
  (sortedCandidates l).take 5

lemma key_ne_of_not_candLE {a y : PlaceCandidate} (h : ¬ candLE a y) : keyOf y ≠ keyOf a := by
  unfold candLE at h
  unfold keyOf
  intro he
  rw [Prod.mk.injEq] at he
  exact h (Or.inr ⟨he.1.symm, he.2.le⟩)

lemma filter_key_orderedInsert (k : ℤ × ℤ) (a : PlaceCandidate) (m : List PlaceCandidate) :
    (List.orderedInsert candLE a m).filter (fun p => decide (keyOf p = k)) =
      if keyOf a = k then a :: m.filter (fun p => decide (keyOf p = k))
      else m.filter (fun p => decide (keyOf p = k)) := by
  induction m with
  | nil =>
    simp only [List.orderedInsert]
    by_cases hk : keyOf a = k <;> simp [List.filter_cons, hk]
  | cons y ys ih =>
    by_cases hr : candLE a y
    · rw [List.orderedInsert_of_le candLE ys hr]
      by_cases hk : keyOf a = k <;> simp [List.filter_cons, hk]
    · have hstep : List.orderedInsert candLE a (y :: ys) =
          y :: List.orderedInsert candLE a ys := by
        simp [List.orderedInsert, hr]
      have hne : keyOf y ≠ keyOf a := key_ne_of_not_candLE hr
      rw [hstep]
      by_cases hk : keyOf a = k
      · have hyk : ¬ keyOf y = k := by rw [hk] at hne; exact hne
        simp [List.filter_cons, ih, hk, hyk]
      · simp [List.filter_cons, ih, hk]

lemma filter_key_insertionSort (k : ℤ × ℤ) (l : List PlaceCandidate) :
    (List.insertionSort candLE l).filter (fun p => decide (keyOf p = k)) =
      l.filter (fun p => decide (keyOf p = k)) := by
  induction l with
  | nil => rfl
  | cons a l ih =>
    simp only [List.insertionSort]
    rw [filter_key_orderedInsert]
    by_cases hk : keyOf a = k <;> simp [List.filter_cons, hk, ih]

/-- Candidate A of the spec's ranking example: explicitly closed, vibe 90. -/
def candA : PlaceCandidate := { name := "A", open_at_time := some false, vibe_score := some 90 }

/-- Candidate B of the spec's ranking example: open at time, vibe 50. -/
def candB : PlaceCandidate := { name := "B", open_at_time := some true, vibe_score := some 50 }

/-- Candidate C of the spec's ranking example: open-at-time unknown, vibe 80. -/
def candC : PlaceCandidate := { name := "C", open_at_time := none, vibe_score := some 80 }

/-- C3 counterexample: on the example list the ranker does not return [C, B];
the comparator orders open=true strictly before open=unknown, so B precedes
C despite its lower vibe score. -/
theorem C3_counterexample :
    findAlternativesRank [candA, candB, candC] ≠ [candC, candB] := by
  intro h
  have h1 : (findAlternativesRank [candA, candB, candC]).map PlaceCandidate.name =
      ["B", "C"] := rfl
  rw [h] at h1
  exact absurd h1 (by decide)

/-- C3 as amended: the ranker returns exactly [B, C] - A is dropped as
closed, and B (open=true) is ordered before C (open=unknown) by the primary
key even though C has the higher vibe score. -/
theorem C3_ranked_example :
    findAlternativesRank [candA, candB, candC] = [candB, candC] := rfl

/-- C4: the ranker keeps exactly the candidates not explicitly closed, the
sorted survivors are a permutation of them ordered by the two-key comparator
(open=true strictly before unknown, then vibe descending), the sort is
stable (each key class keeps its input order), and the result is the first
at-most-5 of the sorted survivors. -/
theorem C4_ranker_filter_stable_sort_truncate (l : List PlaceCandidate) :
    (∀ p, p ∈ findAlternativesRank l → p.open_at_time ≠ some false)
    ∧ (sortedCandidates l).Perm (keptCandidates l)
    ∧ List.Sorted candLE (sortedCandidates l)
    ∧ (∀ k : ℤ × ℤ, (sortedCandidates l).filter (fun p => decide (keyOf p = k)) =
        (keptCandidates l).filter (fun p => decide (keyOf p = k)))
    ∧ findAlternativesRank l = (sortedCandidates l).take 5
    ∧ (findAlternativesRank l).length ≤ 5 := by
  refine ⟨?_, List.perm_insertionSort candLE _, List.sorted_insertionSort candLE _,
    fun k => filter_key_insertionSort k _, rfl, List.length_take_le 5 _⟩
  intro p hp
  have h1 : p ∈ sortedCandidates l := List.mem_of_mem_take hp
  have h2 : p ∈ keptCandidates l := (List.mem_insertionSort candLE).1 h1
  have h3 := List.mem_filter.1 h2
  simpa using h3.2

/-- C4 witness: the filter conjunct applied at the example list and the
candidate B, which survives the ranking. -/
theorem C4_witness : candB.open_at_time ≠ some false :=
  (C4_ranker_filter_stable_sort_truncate [candA, candB, candC]).1 candB
    (by exact List.mem_cons_self candB [candC])

/-- String form of each RiskLevel enum member. -/
def riskLevelString : RiskLevel → String
  | RiskLevel.SAFE => "SAFE"
  | RiskLevel.CAUTION => "CAUTION"
  | RiskLevel.UNSAFE => "UNSAFE"

/-- String form of each Classification enum member. -/
def classificationString : Classification → String
  | Classification.SAFE => "SAFE"
  | Classification.UNSAFE => "UNSAFE"
  | Classification.SOCIAL_BALANCED => "SOCIAL_BALANCED"
  | Classification.INFRA_MISMATCH => "INFRA_MISMATCH"
  | Classification.UNCERTAIN => "UNCERTAIN"

/-- Enum membership test of z.enum(["SAFE", "CAUTION", "UNSAFE"]). -/
def parseRiskLevel (s : String) : Option RiskLevel :=
  if s = "SAFE" then some RiskLevel.SAFE
  else if s = "CAUTION" then some RiskLevel.CAUTION
  else if s = "UNSAFE" then some RiskLevel.UNSAFE
  else none

/-- Enum membership test of z.enum for the five classification labels. -/
def parseClassificationLabel (s : String) : Option Classification :=
  if s = "SAFE" then some Classification.SAFE
  else if s = "UNSAFE" then some Classification.UNSAFE
  else if s = "SOCIAL_BALANCED" then some Classification.SOCIAL_BALANCED
  else if s = "INFRA_MISMATCH" then some Classification.INFRA_MISMATCH
  else if s = "UNCERTAIN" then some Classification.UNCERTAIN
  else none

/-- A model response as parsed JSON: each schema field is either absent or
present; a present field is modelled at its JSON primitive type. -/
structure RawModelResponse where
  risk_level : Option String := none
  classification : Option String := none
  confidence : Option ℚ := none
  rationale : Option String := none
deriving DecidableEq

/-- outputSchema.parse of src/src/lib.ts lines 111-116 and 156: strict zod
validation - all four fields required, enum membership for risk_level and
classification, confidence within [0,1], rationale at most 240 characters;
any violation is a hard error and accepted values pass through unchanged. -/
def outputSchemaParse (resp : RawModelResponse) : Except String ModelOut :=
  match resp.risk_level, resp.classification, resp.confidence, resp.rationale with
  | some rl, some cl, some conf, some rat =>
    match parseRiskLevel rl, parseClassificationLabel cl with
    | some rlv, some clv =>
      if 0 ≤ conf ∧ conf ≤ 1 then
        if rat.length ≤ 240 then
          Except.ok
            { risk_level := rlv, classification := clv, confidence := conf, rationale := rat }
        else Except.error "rationale exceeds 240 characters"
      else Except.error "confidence out of range"
    | _, _ => Except.error "invalid enum value"
  | _, _, _, _ => Except.error "missing required field"

/-- Return value shape of the backend-proxy geminiClassify: risk_level and
classification are whatever the JSON held (a TypeScript cast, not a check). -/
structure BackendClassifyOut where
  risk_level : Option String
  classification : Option String
  confidence : ℚ
  rationale : String
deriving DecidableEq

/-- geminiClassify response handling of the backend-proxy variant
(src/unnamed/part_002 lines 137-143): no validation - risk_level and
classification pass through as-is, confidence is Number(out.confidence ??
0.55) (the identity on a JSON number, 0.55 when absent), and rationale is
String(out.rationale ?? "").slice(0, 240). The conversion is total: the only
throw in that code path is for a non-ok HTTP status, never for content. -/
def geminiClassifyBackend (out : RawModelResponse) : BackendClassifyOut :=
  { risk_level := out.risk_level
    classification := out.classification
    confidence := out.confidence.getD (11/20)
    rationale := jsSlice (out.rationale.getD "") 240 }

/-- A schema-violating model response: risk_level outside the enum and
confidence above 1. -/
def invalidResponse : RawModelResponse :=
  { risk_level := some "MAYBE"
    classification := some "UNCERTAIN"
    confidence := some (3/2)
    rationale := some "csi high, lighting low" }

/-- A schema-conforming model response. -/
def validResponse : RawModelResponse :=
  { risk_level := some "SAFE"
    classification := some "SOCIAL_BALANCED"
    confidence := some 1
    rationale := some "csi low, lighting high" }

/-- C2 counterexample: the backend-proxy classify call does not fail on a
response with risk_level = "MAYBE" and confidence = 1.5 - it returns
successfully with both invalid values passed through - and it silently
substitutes the default 0.55 when confidence is absent. -/
theorem C2_counterexample :
    geminiClassifyBackend invalidResponse =
      { risk_level := some "MAYBE", classification := some "UNCERTAIN",
        confidence := 3/2, rationale := "csi high, lighting low" }
    ∧ (geminiClassifyBackend { invalidResponse with confidence := none }).confidence = 11/20 :=
  ⟨rfl, rfl⟩

lemma parseRiskLevel_eq {s : String} {v : RiskLevel} (h : parseRiskLevel s = some v) :
    s = riskLevelString v := by
  unfold parseRiskLevel at h
  split_ifs at h with a b c
  · injection h with h1
    subst h1
    exact a
  · injection h with h1
    subst h1
    exact b
  · injection h with h1
    subst h1
    exact c

lemma parseClassificationLabel_eq {s : String} {v : Classification}
    (h : parseClassificationLabel s = some v) : s = classificationString v := by
  unfold parseClassificationLabel at h
  split_ifs at h with a b c d e
  · injection h with h1
    subst h1
    exact a
  · injection h with h1
    subst h1
    exact b
  · injection h with h1
    subst h1
    exact c
  · injection h with h1
    subst h1
    exact d
  · injection h with h1
    subst h1
    exact e

/-- C2 as amended: the zod-validated variant of geminiClassify
(src/src/lib.ts) fails hard on every schema-violating response and never
coerces - a successful parse implies all four fields were present, within
the schema bounds, and are returned unmodified; in particular risk_level =
"MAYBE" or confidence = 1.5 is a hard error there. The backend-proxy
variant (src/unnamed/part_002) performs no such validation. -/
theorem C2_schema_parse_strict :
    (∀ resp m, outputSchemaParse resp = Except.ok m →
      resp.risk_level = some (riskLevelString m.risk_level)
      ∧ resp.classification = some (classificationString m.classification)
      ∧ resp.confidence = some m.confidence ∧ 0 ≤ m.confidence ∧ m.confidence ≤ 1
      ∧ resp.rationale = some m.rationale ∧ m.rationale.length ≤ 240)
    ∧ (outputSchemaParse { invalidResponse with risk_level := some "UNSAFE" }).isOk = false
    ∧ (outputSchemaParse { invalidResponse with confidence := some (1/2) }).isOk = false := by
  refine ⟨?_, ?_, ?_⟩
  · intro resp m h
    unfold outputSchemaParse at h
    split at h <;> try exact Except.noConfusion h
    rename_i rl cl conf rat heq1 heq2 heq3 heq4
    split at h <;> try exact Except.noConfusion h
    rename_i rlv clv heq5 heq6
    split_ifs at h with h7 h8
    injection h with h9
    subst h9
    exact ⟨by rw [heq1, parseRiskLevel_eq heq5],
      by rw [heq2, parseClassificationLabel_eq heq6],
      heq3, h7.1, h7.2, heq4, h8⟩
  · norm_num +decide [outputSchemaParse, invalidResponse, parseRiskLevel,
      parseClassificationLabel]
  · norm_num +decide [outputSchemaParse, invalidResponse, parseRiskLevel,
      parseClassificationLabel]

/-- C2 witness: the strictness theorem applied to a concrete response that
parses successfully. -/
theorem C2_witness : validResponse.risk_level = some (riskLevelString RiskLevel.SAFE) :=
  (C2_schema_parse_strict.1 validResponse
    { risk_level := RiskLevel.SAFE, classification := Classification.SOCIAL_BALANCED,
      confidence := 1, rationale := "csi low, lighting high" }
    (by norm_num +decide [outputSchemaParse, validResponse, parseRiskLevel,
      parseClassificationLabel])).1

end GlowPath
